import Mathlib

/-!
Shallow embedding of the battle engine of `kaizo_quest` (`src/core.rs` and
`src/onion.rs`).  Machine integers are modelled as `Nat` (for `u32`) and
`Int` (for `i32`); the Rust release-build wraparound semantics is made
explicit with `% 2^32` where an operation can overflow, and the `as`
casts between `u32` and `i32` are modelled by `toInt32` / `u32OfI32`.
The `f64` base-stat ratios are modelled as rationals; every concrete
value used below is exactly representable in `f64` and the operations on
them (`*`, `/` with small dyadic operands, truncating cast to `u32`) are
exact there, so the rational model agrees with the source on those inputs.
-/

namespace KaizoQuest

/-- Wraparound of `u32` arithmetic (Rust release semantics). -/
def u32Mod (n : Nat) : Nat := n % 2 ^ 32

/-- The cast `d as i32` applied to a `u32` value `d` (two's complement reinterpretation). -/
def toInt32 (n : Nat) : Int :=
  if n % 2 ^ 32 < 2 ^ 31 then ((n % 2 ^ 32 : Nat) : Int)
  else ((n % 2 ^ 32 : Nat) : Int) - 2 ^ 32

/-- The cast `n as u32` applied to an `i32` value (two's complement reinterpretation). -/
def u32OfI32 (z : Int) : Nat := (z % 2 ^ 32).toNat

/-- Wraparound of `i32` arithmetic (Rust release semantics). -/
def i32Wrap (z : Int) : Int := (z + 2 ^ 31) % 2 ^ 32 - 2 ^ 31

/-- `core.rs`: `Stats<T>` — the 4-component stat vector. -/
structure Stats (T : Type) where
  health : T
  attack : T
  defense : T
  speed : T
deriving DecidableEq, Repr

/-- `core.rs`: `Stats::from_values`. -/
def Stats.from_values {T : Type} (health attack defense speed : T) : Stats T :=
  ⟨health, attack, defense, speed⟩

/-- `onion.rs`: `enum Status { Defend, Bleed, Stun }`. -/
inductive Status where
  | Defend
  | Bleed
  | Stun
deriving DecidableEq, Repr

/-- `onion.rs`: `enum Alignment { Rock, Paper, Scissors }`. -/
inductive Alignment where
  | Rock
  | Paper
  | Scissors
deriving DecidableEq, Repr

/-- The `HashMap<Status, i32>` of a character's active statuses.  With only
three possible keys the map is a triple of optional intensities. -/
structure StatusMap where
  defend : Option Int
  bleed : Option Int
  stun : Option Int
deriving DecidableEq, Repr

namespace StatusMap

/-- `HashMap::new()`. -/
def empty : StatusMap := ⟨none, none, none⟩

/-- `HashMap::get`. -/
def get (m : StatusMap) : Status → Option Int
  | .Defend => m.defend
  | .Bleed => m.bleed
  | .Stun => m.stun

/-- `HashMap::contains_key`. -/
def contains (m : StatusMap) (s : Status) : Bool := (m.get s).isSome

/-- `HashMap::insert` (also the effect of `and_modify` with the new value). -/
def insert (m : StatusMap) (s : Status) (v : Int) : StatusMap :=
  match s with
  | .Defend => { m with defend := some v }
  | .Bleed => { m with bleed := some v }
  | .Stun => { m with stun := some v }

/-- `HashMap::remove` (the source discards the returned value). -/
def remove (m : StatusMap) (s : Status) : StatusMap :=
  match s with
  | .Defend => { m with defend := none }
  | .Bleed => { m with bleed := none }
  | .Stun => { m with stun := none }

/-- `entry(s).or_insert(v)`. -/
def entryOrInsert (m : StatusMap) (s : Status) (v : Int) : StatusMap :=
  if (m.get s).isSome then m else m.insert s v

end StatusMap

/-- `core.rs`: `Species<A>` with `A = Alignment`; the `f64` ratio vector as `ℚ`. -/
structure Species where
  name : String
  bst : Nat
  stats : Stats ℚ
  alignment : Alignment
deriving DecidableEq, Repr

/-- `core.rs`: `Attributes` (`ActionId = usize` modelled as `Nat`). -/
structure Attributes where
  level : Nat
  experience : Nat
  stats : Stats Nat
  actions : List Nat
deriving DecidableEq, Repr

/-- `core.rs`: `State<A, S>` with `A = Alignment`, `S = Status`. -/
structure CharState where
  alignment : Alignment
  health : Int
  status : StatusMap
deriving DecidableEq, Repr

/-- `core.rs`: `Character<A, S>` with `A = Alignment`, `S = Status`
(`OnionCharacter` in `onion.rs`). -/
structure Character where
  name : String
  species : Species
  attributes : Attributes
  state : CharState
deriving DecidableEq, Repr

namespace Character

/-- `core.rs`: `Character::from_species`. -/
def from_species (species : Species) : Character :=
  { name := species.name
    species := species
    attributes := { level := 0, experience := 0, stats := ⟨0, 0, 0, 0⟩, actions := [] }
    state := { alignment := species.alignment, health := 0, status := .empty } }

/-- `core.rs`: `Character::refresh`. -/
def refresh (c : Character) : Character :=
  { c with state :=
      { alignment := c.species.alignment
        health := (c.attributes.stats.health : Int)
        status := .empty } }

end Character

/-- `onion.rs`: `Effectiveness::effectiveness` for `Alignment`. -/
def effectiveness (self other : Alignment) : Nat :=
  match self, other with
  | .Rock, .Paper | .Paper, .Scissors | .Scissors, .Rock => 5
  | .Rock, .Scissors | .Scissors, .Paper | .Paper, .Rock => 20
  | _, _ => 10

/-- `onion.rs`: `Damage::deal_damage` —
`self.state.health = max(0, self.state.health - damage as i32)`.
The `i32` subtraction is wrapped as in a release build. -/
def deal_damage (c : Character) (damage : Nat) : Character :=
  { c with state :=
      { c.state with health := max 0 (i32Wrap (c.state.health - toInt32 damage)) } }

/-- `onion.rs`: `struct Attack` (priority unused by `act` except for display). -/
structure Attack where
  name : String
  power : Nat
  alignment : Alignment
  priority : Int
deriving DecidableEq, Repr

/-- The damage computed inside `Attack::act` (the `u32` products wrapped as
in a release build; the final `+ 2` cannot overflow since the quotient is
at most `(2^32 - 1) / 5000`). -/
def Attack.damage (self : Attack) (user target : Character) : Nat :=
  let level := u32Mod (2 * user.attributes.level) / 5 + 2
  let stats := user.attributes.stats.attack / target.attributes.stats.defense
  let stab := if user.state.alignment = self.alignment then 15 else 10
  let eff := effectiveness self.alignment target.state.alignment
  u32Mod (u32Mod (u32Mod (u32Mod (level * self.power) * stats) * stab) * eff)
    / 50 / 10 / 10 + 2

/-- The `match effectiveness { 20 => …, 5 => …, 0 => …, _ => () }` log
commentary of `Attack::act`. -/
def effectivenessLog (eff : Nat) : List String :=
  if eff = 20 then ["It's very effective."]
  else if eff = 5 then ["It's not very effective."]
  else if eff = 0 then ["It has no effect."]
  else []

/-- `onion.rs`: `Attack::act`.  Returns the updated user, updated target and
the log lines.  (The Rust borrow of `user` is never written through, so the
user comes back unchanged.)  Note: `user.attributes.stats.attack /
target.attributes.stats.defense` panics in Rust when the defense is 0; the
theorems below only use this definition under a `defense ≥ 1` hypothesis. -/
def Attack.act (self : Attack) (user target : Character) :
    Character × Character × List String :=
  let logs := [user.name ++ " used " ++ self.name ++ "."]
  if target.state.status.contains .Defend then
    (user, target,
      logs ++ [target.name ++ " blocked " ++ user.name ++ "'s " ++ self.name ++ "."])
  else
    let eff := effectiveness self.alignment target.state.alignment
    (user, deal_damage target (self.damage user target), logs ++ effectivenessLog eff)

/-- `onion.rs`: `struct PureAttack`. -/
structure PureAttack where
  name : String
  power : Nat
deriving DecidableEq, Repr

/-- `onion.rs`: `PureAttack::act`. -/
def PureAttack.act (self : PureAttack) (user target : Character) :
    Character × Character × List String :=
  let logs := [user.name ++ " used " ++ self.name ++ "."]
  if target.state.status.contains .Defend then
    (user, target, logs ++ [target.name ++ " blocked " ++ user.name ++ "'s attack"])
  else
    (user, deal_damage target self.power, logs)

/-- `onion.rs`: `struct Defend`. -/
structure DefendAction where
  name : String
deriving DecidableEq, Repr

/-- `onion.rs`: `Defend::act` — `entry(Defend).or_insert(0)` on the user. -/
def DefendAction.act (_self : DefendAction) (user target : Character) :
    Character × Character × List String :=
  let user' := { user with state :=
      { user.state with status := user.state.status.entryOrInsert .Defend 0 } }
  (user', target, [user.name ++ " is defending."])

/-- `onion.rs`: `struct Bleed`. -/
structure BleedAction where
  name : String
  power : Nat
deriving DecidableEq, Repr

/-- `onion.rs`: `Bleed::act` — fails when the target is stunned, otherwise
`entry(Bleed).or_insert(0)` then `and_modify(|s| *s += power as i32)`
(the `i32` addition wrapped as in a release build). -/
def BleedAction.act (self : BleedAction) (user target : Character) :
    Character × Character × List String :=
  let logs := [user.name ++ " used " ++ self.name ++ "."]
  if target.state.status.contains .Stun then
    (user, target, logs ++ ["But " ++ target.name ++ " is stunned."])
  else
    let m := target.state.status.entryOrInsert .Bleed 0
    let m := m.insert .Bleed (i32Wrap ((m.get .Bleed).getD 0 + toInt32 self.power))
    (user, { target with state := { target.state with status := m } },
      logs ++ [target.name ++ " gained " ++ toString self.power ++ " bleeding."])

/-- `onion.rs`: `struct Stun`. -/
structure StunAction where
  name : String
deriving DecidableEq, Repr

/-- `onion.rs`: `Stun::act` — fails when the target is bleeding, otherwise
`entry(Stun).or_insert(0)` then `and_modify(|s| *s += 1)`. -/
def StunAction.act (self : StunAction) (user target : Character) :
    Character × Character × List String :=
  let logs := [user.name ++ " used " ++ self.name ++ "."]
  if target.state.status.contains .Bleed then
    (user, target, logs ++ ["But " ++ target.name ++ " is poisoned."])
  else
    let m := target.state.status.entryOrInsert .Stun 0
    let m := m.insert .Stun (i32Wrap ((m.get .Stun).getD 0 + 1))
    (user, { target with state := { target.state with status := m } },
      logs ++ [target.name ++ " is stunned."])

/-- The closed sum of the concrete `Action` implementations of `onion.rs`
(`Attack`, `PureAttack`, `Defend`, `Bleed`, `Stun`, `Skip`), standing in for
the `dyn Action<Alignment, Status>` trait object. -/
inductive OnionAction where
  | attack (a : Attack)
  | pureAttack (a : PureAttack)
  | defendAction (a : DefendAction)
  | bleedAction (a : BleedAction)
  | stunAction (a : StunAction)
  | skip
deriving DecidableEq, Repr

/-- Dispatch of `Action::act` over the concrete implementations
(`Skip::act` only logs). -/
def OnionAction.act : OnionAction → Character → Character →
    Character × Character × List String
  | .attack a, user, target => a.act user target
  | .pureAttack a, user, target => a.act user target
  | .defendAction a, user, target => a.act user target
  | .bleedAction a, user, target => a.act user target
  | .stunAction a, user, target => a.act user target
  | .skip, user, target => (user, target, [user.name ++ " used Skip."])

/-- `onion.rs`: `static EXPERIENCE_TO_LEVEL: u32 = 100`. -/
def EXPERIENCE_TO_LEVEL : Nat := 100

/-- `onion.rs`: `static SCALING_FACTOR: u32 = 100`. -/
def SCALING_FACTOR : Nat := 100

/-- `onion.rs`: `static BASE_EXPERIENCE: u32 = 31`. -/
def BASE_EXPERIENCE : Nat := 31

/-- `onion.rs`: `static GROWTH_FACTOR: u32 = 47`. -/
def GROWTH_FACTOR : Nat := 47

/-- The closure `log2u32` of `Experience::experience`:
`if x > 0 { (x as f64).log(2.0) as u32 } else { 0 }`.  For every `u32`
input the truncated `f64` base-2 logarithm equals `Nat.log 2`
(the slack to the nearest integer boundary is at least `2^-32`, far above
the `f64` rounding error of `log` on values below 32). -/
def log2u32 (x : Nat) : Nat := if x > 0 then Nat.log 2 x else 0

/-- `onion.rs`: `Experience::experience` for `Character`.  The `u32`
products are wrapped as in a release build.  (If `level + 1` wraps to 0 or
1 the Rust division panics; no theorem below touches that corner.) -/
def Character.experience (c : Character) : Nat :=
  if c.attributes.level = 0 ∨ c.species.bst = 0 then 0
  else
    let bst := u32Mod (c.species.bst * log2u32 (u32Mod (c.species.bst + 1)))
    let level := c.attributes.level / log2u32 (u32Mod (c.attributes.level + 1))
    u32Mod (bst * level) / BASE_EXPERIENCE

/-- The truncating, saturating cast `x as u32` applied to an `f64` value,
modelled on `ℚ`: negative values clamp to 0, values at or above `2^32`
clamp to `u32::MAX`, and nonnegative in-range values round toward zero. -/
def ratToU32 (q : ℚ) : Nat :=
  if q < 0 then 0 else min (Int.toNat ⌊q⌋) (2 ^ 32 - 1)

/-- `onion.rs`: `Scale::scale` for `Stats<f64>` — each component is
`a as f64 * x_i / z` cast to `u32`, where `z` is the component sum.
(With `z = 0` the Rust division yields `inf`/NaN; on `ℚ` it yields 0.
Theorems below use this only where the sum is positive, where both agree.) -/
def Stats.scale (s : Stats ℚ) (a : Nat) : Stats Nat :=
  let z : ℚ := s.health + s.attack + s.defense + s.speed
  ⟨ratToU32 ((a : ℚ) * s.health / z), ratToU32 ((a : ℚ) * s.attack / z),
    ratToU32 ((a : ℚ) * s.defense / z), ratToU32 ((a : ℚ) * s.speed / z)⟩

/-- `core.rs`: `AddAssign for Stats<u32>` — componentwise `u32` addition,
wrapped as in a release build. -/
def statsAddU32 (a b : Stats Nat) : Stats Nat :=
  ⟨u32Mod (a.health + b.health), u32Mod (a.attack + b.attack),
    u32Mod (a.defense + b.defense), u32Mod (a.speed + b.speed)⟩

/-- `onion.rs`: `Experience::gain_experience` for `Character`.  The `u32`
additions are wrapped as in a release build. -/
def Character.gain_experience (c : Character) (experience : Nat) :
    Character × List String :=
  let logs := ["Gained " ++ toString experience ++ " experience!"]
  let experience := u32Mod (c.attributes.experience + experience)
  let newExperience := experience % EXPERIENCE_TO_LEVEL
  let levels := experience / EXPERIENCE_TO_LEVEL
  let newLevel := u32Mod (c.attributes.level + levels)
  if levels > 0 then
    let stats := c.species.stats.scale SCALING_FACTOR
    ({ c with attributes := { c.attributes with
        experience := newExperience, level := newLevel,
        stats := statsAddU32 c.attributes.stats stats } },
      logs ++ ["Stats increased by " ++ toString (repr stats)])
  else
    ({ c with attributes := { c.attributes with
        experience := newExperience, level := newLevel } }, logs)

/-- `onion.rs`: `take_turn`.  The random draw `random::<u32>()` is passed
in explicitly as `draw`.  The bleed intensity is re-fetched after the
action acts, as in the source (`.unwrap()` cannot fail there since no
action removes the user's own Bleed status; `getD 0` models it).
(If the stun intensity is `-1`, the Rust `%` divides by zero and panics;
theorems below keep intensities nonnegative.) -/
def take_turn (draw : Nat) (user target : Character) (action : OnionAction) :
    Character × Character × List String :=
  match user.state.status.get .Stun with
  | some n =>
      if u32Mod draw % u32Mod (u32OfI32 n + 1) = 0 then
        let user' := { user with state :=
            { user.state with status := user.state.status.remove .Stun } }
        let r := action.act user' target
        (r.1, r.2.1, (user.name ++ " is no longer stunned.") :: r.2.2)
      else
        (user, target, [user.name ++ " is stunned."])
  | none =>
      match user.state.status.get .Bleed with
      | some _ =>
          let r := action.act user target
          let u := r.1
          let u := { u with state := { u.state with
              health := max 0 (i32Wrap (u.state.health - (u.state.status.get .Bleed).getD 0)) } }
          (u, r.2.1, r.2.2 ++ [u.name ++ " was hurt by bleed."])
      | none => action.act user target

/-- `onion.rs`: the free function `clean_up` — removes Defend. -/
def clean_up (character : Character) : Character :=
  if character.state.status.contains .Defend then
    { character with state :=
        { character.state with status := character.state.status.remove .Defend } }
  else character

/-- `onion.rs`: `enum OnionBattleState`. -/
inductive OnionBattleState where
  | Defeat
  | InProcess
  | Victory
deriving DecidableEq, Repr

/-- `onion.rs`: `struct OnionBattle`. -/
structure OnionBattle where
  player : Character
  enemy : Character
deriving DecidableEq, Repr

namespace OnionBattle

/-- `onion.rs`: `OnionBattle::battle_state`. -/
def battle_state (b : OnionBattle) : OnionBattleState :=
  if b.player.state.health = 0 then .Defeat
  else if b.enemy.state.health = 0 then .Victory
  else .InProcess

/-- `onion.rs`: `OnionBattle::clean_up` — cleans up both characters. -/
def clean_up (b : OnionBattle) : OnionBattle :=
  { player := KaizoQuest.clean_up b.player, enemy := KaizoQuest.clean_up b.enemy }

/-- `onion.rs`: `OnionBattle::player_turn` (random draw passed explicitly). -/
def player_turn (b : OnionBattle) (draw : Nat) (action : OnionAction) :
    OnionBattle × List String :=
  match b.battle_state with
  | .InProcess =>
      let r := take_turn draw b.player b.enemy action
      ({ player := r.1, enemy := r.2.1 }, r.2.2)
  | _ => (b, [])

/-- `onion.rs`: `OnionBattle::enemy_turn` (random draw passed explicitly). -/
def enemy_turn (b : OnionBattle) (draw : Nat) (action : OnionAction) :
    OnionBattle × List String :=
  match b.battle_state with
  | .InProcess =>
      let r := take_turn draw b.enemy b.player action
      ({ player := r.2.1, enemy := r.1 }, r.2.2)
  | _ => (b, [])

/-- `onion.rs`: `OnionBattle::end_turn`.  (On Victory the Rust code
divides by `player.attributes.level` and panics at level 0; theorems
below hypothesise a positive level, where `Nat` division agrees.) -/
def end_turn (b : OnionBattle) : OnionBattle × OnionBattleState × List String :=
  match b.battle_state with
  | .Victory =>
      let logs := ["Defeated " ++ b.enemy.name ++ "!"]
      let experience := b.enemy.experience / b.player.attributes.level
      let r := b.player.gain_experience experience
      ({ b with player := r.1 }, .Victory, logs ++ r.2)
  | .Defeat => (b, .Defeat, [b.player.name ++ " died!"])
  | .InProcess => (b.clean_up, .InProcess, [])

end OnionBattle

/-- `onion.rs` test module `testing`: `fake_stats`. -/
def fake_stats : Stats ℚ := Stats.from_values (1/4) (1/4) (1/4) (1/4)

/-- `onion.rs` test module `testing`: `fake_species` (BST 0, Rock). -/
def fake_species : Species :=
  { name := "fake", bst := 0, stats := fake_stats, alignment := .Rock }

/-- `onion.rs` test module `testing`: `fake_character`. -/
def fake_character : Character := Character.from_species fake_species

/-- `onion.rs` test module `action_tests`: `fake_character_with_health`. -/
def fake_character_with_health (health : Nat) : Character :=
  Character.refresh { fake_character with attributes :=
    { fake_character.attributes with stats :=
      { fake_character.attributes.stats with health := health } } }

/-- The spec's per-character health bound:
`0 <= current_health <= realized_stats.health`. -/
def charInv (c : Character) : Prop :=
  0 ≤ c.state.health ∧ c.state.health ≤ (c.attributes.stats.health : Int)

instance (c : Character) : Decidable (charInv c) :=
  inferInstanceAs (Decidable (_ ∧ _))

/-- A stored status intensity is a nonnegative `i32` value. -/
def intensityWF : Option Int → Prop
  | none => True
  | some n => 0 ≤ n ∧ n < 2 ^ 31

instance : (o : Option Int) → Decidable (intensityWF o)
  | none => .isTrue trivial
  | some _ => inferInstanceAs (Decidable (_ ∧ _))

/-- In-battle well-formedness of a character: the health bound, a maximum
health representable as a nonnegative `i32`, a positive defense stat (the
Rust damage formula divides by it) and representable nonnegative Bleed and
Stun intensities. -/
def charWF (c : Character) : Prop :=
  charInv c ∧ (c.attributes.stats.health : Int) < 2 ^ 31 ∧
    1 ≤ c.attributes.stats.defense ∧
    intensityWF c.state.status.bleed ∧ intensityWF c.state.status.stun

instance (c : Character) : Decidable (charWF c) :=
  inferInstanceAs (Decidable (_ ∧ _))

/-- Well-formedness of an action: a fixed-power attack deals its power
directly to `deal_damage`, so that power must fit in a nonnegative `i32`.
(The damaging Attack's computed damage is below `2^31` unconditionally.) -/
def actionWF : OnionAction → Prop
  | .pureAttack a => a.power < 2 ^ 31
  | _ => True

instance : (a : OnionAction) → Decidable (actionWF a)
  | .attack _ => .isTrue trivial
  | .pureAttack _ => inferInstanceAs (Decidable (_ < _))
  | .defendAction _ => .isTrue trivial
  | .bleedAction _ => .isTrue trivial
  | .stunAction _ => .isTrue trivial
  | .skip => .isTrue trivial

/-- The user of `attack_test` in `onion.rs`: level 19, attack stat 17. -/
def exampleUser : Character :=
  { fake_character with attributes := { fake_character.attributes with
      level := 19,
      stats := { fake_character.attributes.stats with attack := 17 } } }

/-- The target of `attack_test` in `onion.rs`: defense 13, health 100,
Rock-aligned (from `fake_species`), no statuses. -/
def exampleTarget : Character :=
  let c := fake_character_with_health 100
  { c with attributes := { c.attributes with
      stats := { c.attributes.stats with defense := 13 } } }

/-- `exampleTarget` with a Scissors alignment, so that the Scissors-aligned
example attack meets a genuinely neutral effectiveness. -/
def exampleTargetScissors : Character :=
  { exampleTarget with state := { exampleTarget.state with alignment := .Scissors } }

/-- `action_tests::fake_attack(11)`: Scissors-aligned, power 11, priority 0. -/
def exampleAttack : Attack :=
  { name := "fake", power := 11, alignment := .Scissors, priority := 0 }

/-- A fixed-power attack whose `u32` power reinterprets as the `i32` value
`-1` inside `deal_damage`. -/
def hugePureAttack : PureAttack := { name := "fake", power := 2 ^ 32 - 1 }

/-- A concrete well-formed battler: level 1, max health 10 (current 10),
attack 5, defense 3, speed 2, no statuses. -/
def witnessChar : Character :=
  { fake_character with
    attributes := { fake_character.attributes with level := 1, stats := ⟨10, 5, 3, 2⟩ },
    state := { fake_character.state with health := 10 } }

/-- A copy of `fake_character` with an active Stun status of intensity 2. -/
def stunUser : Character :=
  { fake_character with state :=
      { fake_character.state with status := ⟨none, none, some 2⟩ } }

/-- A target carrying both debuff statuses at intensity 1 (the state space
of the `HashMap` allows it). -/
def bothDebuffsTarget : Character :=
  { fake_character with state :=
      { fake_character.state with status := ⟨none, some 1, some 1⟩ } }

/-- A copy of `witnessChar` with an active Defend status. -/
def defendingTarget : Character :=
  { witnessChar with state :=
      { witnessChar.state with status := ⟨some 0, none, none⟩ } }

/-! ### Helper lemmas -/

theorem u32Mod_lt (n : Nat) : u32Mod n < 2 ^ 32 :=
  Nat.mod_lt _ (by norm_num)

theorem u32Mod_eq_of_lt {n : Nat} (h : n < 2 ^ 32) : u32Mod n = n :=
  Nat.mod_eq_of_lt h

theorem toInt32_of_lt {d : Nat} (h : d < 2 ^ 31) : toInt32 d = (d : Int) := by
  unfold toInt32
  rw [Nat.mod_eq_of_lt (lt_trans h (by norm_num))]
  rw [if_pos h]

theorem i32Wrap_eq {z : Int} (h1 : -(2 ^ 31) ≤ z) (h2 : z < 2 ^ 31) : i32Wrap z = z := by
  unfold i32Wrap
  omega

theorem u32OfI32_eq {n : Int} (h0 : 0 ≤ n) (h1 : n < 2 ^ 31) : u32OfI32 n = n.toNat := by
  unfold u32OfI32
  rw [Int.emod_eq_of_lt h0 (by omega)]

theorem ratToU32_eq {q : ℚ} {n : Nat} (h0 : 0 ≤ q) (hf : ⌊q⌋ = (n : ℤ))
    (hn : n ≤ 2 ^ 32 - 1) : ratToU32 q = n := by
  unfold ratToU32
  rw [if_neg (not_lt.mpr h0), hf, Int.toNat_natCast]
  omega

theorem ratToU32_le {q : ℚ} (h0 : 0 ≤ q) : (ratToU32 q : ℚ) ≤ q := by
  unfold ratToU32
  rw [if_neg (not_lt.mpr h0)]
  have h1 : ((min (Int.toNat ⌊q⌋) (2 ^ 32 - 1) : ℕ) : ℚ) ≤ ((Int.toNat ⌊q⌋ : ℕ) : ℚ) := by
    exact_mod_cast Nat.min_le_left _ _
  refine h1.trans ?_
  have h2 : ((Int.toNat ⌊q⌋ : ℕ) : ℤ) = ⌊q⌋ := Int.toNat_of_nonneg (Int.floor_nonneg.mpr h0)
  calc ((Int.toNat ⌊q⌋ : ℕ) : ℚ) = ((⌊q⌋ : ℤ) : ℚ) := by exact_mod_cast congrArg Int.cast h2
    _ ≤ q := Int.floor_le q

theorem gain_experience_fst_experience (c : Character) (e : Nat) :
    (c.gain_experience e).1.attributes.experience
      = u32Mod (c.attributes.experience + e) % EXPERIENCE_TO_LEVEL := by
  simp only [Character.gain_experience]
  split <;> rfl

theorem gain_experience_fst_level (c : Character) (e : Nat) :
    (c.gain_experience e).1.attributes.level
      = u32Mod (c.attributes.level
          + u32Mod (c.attributes.experience + e) / EXPERIENCE_TO_LEVEL) := by
  simp only [Character.gain_experience]
  split <;> rfl

theorem gain_experience_fst_state (c : Character) (e : Nat) :
    (c.gain_experience e).1.state = c.state := by
  simp only [Character.gain_experience]
  split <;> rfl

theorem gain_experience_fst_stats_health (c : Character) (e : Nat)
    (hov : c.attributes.stats.health
        + (c.species.stats.scale SCALING_FACTOR).health < 2 ^ 32) :
    c.attributes.stats.health ≤ (c.gain_experience e).1.attributes.stats.health := by
  simp only [Character.gain_experience]
  split
  · show c.attributes.stats.health ≤ (statsAddU32 c.attributes.stats _).health
    unfold statsAddU32 u32Mod
    dsimp only
    rw [Nat.mod_eq_of_lt hov]
    omega
  · exact le_refl _

theorem Attack.damage_lt (a : Attack) (user target : Character) :
    a.damage user target < 2 ^ 31 := by
  unfold Attack.damage
  dsimp only
  set w := u32Mod (u32Mod (u32Mod (u32Mod
    ((u32Mod (2 * user.attributes.level) / 5 + 2) * a.power)
      * (user.attributes.stats.attack / target.attributes.stats.defense))
      * (if user.state.alignment = a.alignment then 15 else 10))
      * effectiveness a.alignment target.state.alignment) with hw
  have h1 : w < 2 ^ 32 := u32Mod_lt _
  have h2 : w / 50 / 10 / 10 = w / 5000 := by
    rw [Nat.div_div_eq_div_mul, Nat.div_div_eq_div_mul]
  have h3 : w / 5000 ≤ (2 ^ 32 - 1) / 5000 := Nat.div_le_div_right (by omega)
  norm_num at h3
  omega

theorem Attack.two_le_damage (a : Attack) (user target : Character) :
    2 ≤ a.damage user target := by
  unfold Attack.damage
  dsimp only
  exact Nat.le_add_left 2 _

theorem clean_up_fields (c : Character) :
    (clean_up c).state.health = c.state.health ∧ (clean_up c).attributes = c.attributes := by
  unfold clean_up
  split <;> exact ⟨rfl, rfl⟩

theorem deal_damage_spec (c : Character) (d : Nat) (h0 : 0 ≤ c.state.health)
    (h1 : c.state.health < 2 ^ 31) (hd : d < 2 ^ 31) :
    (deal_damage c d).state.health = max 0 (c.state.health - (d : Int)) := by
  unfold deal_damage
  dsimp only
  rw [toInt32_of_lt hd, i32Wrap_eq (by omega) (by omega)]

theorem act_user_fields (a : OnionAction) (user target : Character) :
    (a.act user target).1.state.health = user.state.health ∧
    (a.act user target).1.attributes = user.attributes ∧
    (a.act user target).1.state.status.bleed = user.state.status.bleed := by
  cases a with
  | attack a =>
      unfold OnionAction.act Attack.act
      dsimp only
      split <;> exact ⟨rfl, rfl, rfl⟩
  | pureAttack a =>
      unfold OnionAction.act PureAttack.act
      dsimp only
      split <;> exact ⟨rfl, rfl, rfl⟩
  | defendAction a =>
      unfold OnionAction.act DefendAction.act StatusMap.entryOrInsert
      dsimp only
      split <;> exact ⟨rfl, rfl, rfl⟩
  | bleedAction a =>
      unfold OnionAction.act BleedAction.act
      dsimp only
      split <;> exact ⟨rfl, rfl, rfl⟩
  | stunAction a =>
      unfold OnionAction.act StunAction.act
      dsimp only
      split <;> exact ⟨rfl, rfl, rfl⟩
  | skip => exact ⟨rfl, rfl, rfl⟩

theorem act_target_fields (a : OnionAction) (user target : Character) (ha : actionWF a) :
    (a.act user target).2.1.attributes = target.attributes ∧
    ((a.act user target).2.1.state.health = target.state.health ∨
      ∃ d : Nat, d < 2 ^ 31 ∧ (a.act user target).2.1 = deal_damage target d) := by
  cases a with
  | attack a =>
      unfold OnionAction.act Attack.act
      dsimp only
      split
      · exact ⟨rfl, Or.inl rfl⟩
      · exact ⟨rfl, Or.inr ⟨a.damage user target, a.damage_lt user target, rfl⟩⟩
  | pureAttack a =>
      unfold OnionAction.act PureAttack.act
      dsimp only
      split
      · exact ⟨rfl, Or.inl rfl⟩
      · exact ⟨rfl, Or.inr ⟨a.power, ha, rfl⟩⟩
  | defendAction a => exact ⟨rfl, Or.inl rfl⟩
  | bleedAction a =>
      unfold OnionAction.act BleedAction.act
      dsimp only
      split <;> exact ⟨rfl, Or.inl rfl⟩
  | stunAction a =>
      unfold OnionAction.act StunAction.act
      dsimp only
      split <;> exact ⟨rfl, Or.inl rfl⟩
  | skip => exact ⟨rfl, Or.inl rfl⟩

theorem deal_damage_charInv (c : Character) (d : Nat) (hc : charInv c)
    (hh : (c.attributes.stats.health : Int) < 2 ^ 31) (hd : d < 2 ^ 31) :
    charInv (deal_damage c d) := by
  obtain ⟨h0, h1⟩ := hc
  have ha : (deal_damage c d).attributes = c.attributes := rfl
  constructor
  · show 0 ≤ (deal_damage c d).state.health
    rw [deal_damage_spec c d h0 (by omega) hd]
    omega
  · show (deal_damage c d).state.health ≤ ((deal_damage c d).attributes.stats.health : Int)
    rw [ha, deal_damage_spec c d h0 (by omega) hd]
    omega

theorem act_both_charInv (a : OnionAction) (user target : Character)
    (hu : charInv user) (ht : charInv target)
    (hth : (target.attributes.stats.health : Int) < 2 ^ 31) (ha : actionWF a) :
    charInv (a.act user target).1 ∧ charInv (a.act user target).2.1 := by
  obtain ⟨huh, hua, _⟩ := act_user_fields a user target
  obtain ⟨hta, htcase⟩ := act_target_fields a user target ha
  constructor
  · exact ⟨by rw [huh]; exact hu.1, by rw [huh, hua]; exact hu.2⟩
  · rcases htcase with heq | ⟨d, hd, heq⟩
    · exact ⟨by rw [heq]; exact ht.1, by rw [heq, hta]; exact ht.2⟩
    · rw [heq]
      exact deal_damage_charInv target d ht hth hd

theorem take_turn_charInv (draw : Nat) (user target : Character) (a : OnionAction)
    (hu : charWF user) (ht : charWF target) (ha : actionWF a) :
    charInv (take_turn draw user target a).1 ∧
      charInv (take_turn draw user target a).2.1 := by
  obtain ⟨hui, huh, hud, hubl, hust⟩ := hu
  obtain ⟨hti, hth, htd, htbl, htst⟩ := ht
  unfold take_turn
  split
  · -- Stun branch
    split
    · -- recovery: the action acts from the stun-free user
      dsimp only
      exact act_both_charInv a _ target ⟨hui.1, hui.2⟩ hti hth ha
    · -- still stunned: state unchanged
      exact ⟨hui, hti⟩
  · -- no Stun: split on the Bleed branch
    split
    · -- Bleed branch
      rename_i n hbl
      dsimp only
      obtain ⟨hact1, hact2⟩ := act_both_charInv a user target hui hti hth ha
      obtain ⟨huh', hua', hubl'⟩ := act_user_fields a user target
      have hget : ((a.act user target).1.state.status.get .Bleed).getD 0 = n := by
        show ((a.act user target).1.state.status.bleed).getD 0 = n
        rw [hubl', show user.state.status.bleed = some n from hbl]
        rfl
      have hn : 0 ≤ n ∧ n < 2 ^ 31 := by
        have h := hubl
        rw [show user.state.status.bleed = some n from hbl] at h
        exact h
      have hhb : 0 ≤ (a.act user target).1.state.health ∧
          (a.act user target).1.state.health < 2 ^ 31 ∧
          (a.act user target).1.state.health ≤ (user.attributes.stats.health : Int) := by
        rw [huh']
        exact ⟨hui.1, lt_of_le_of_lt hui.2 huh, hui.2⟩
      refine ⟨⟨?_, ?_⟩, hact2⟩
      · show 0 ≤ max 0 (i32Wrap _)
        exact le_max_left _ _
      · show max 0 (i32Wrap ((a.act user target).1.state.health
            - ((a.act user target).1.state.status.get .Bleed).getD 0)) ≤ _
        rw [hget, i32Wrap_eq (by omega) (by omega), hua']
        omega
    · -- no active status: the plain action
      exact act_both_charInv a user target hui hti hth ha

theorem end_turn_charInv (b : OnionBattle)
    (hp : charWF b.player) (he : charWF b.enemy)
    (hov : b.player.attributes.stats.health
        + (b.player.species.stats.scale SCALING_FACTOR).health < 2 ^ 32) :
    charInv b.end_turn.1.player ∧ charInv b.end_turn.1.enemy := by
  unfold OnionBattle.end_turn
  split
  · -- Victory: the player gains experience, which can only grow its stats
    dsimp only
    have hstate := gain_experience_fst_state b.player
      (b.enemy.experience / b.player.attributes.level)
    have hstats := gain_experience_fst_stats_health b.player
      (b.enemy.experience / b.player.attributes.level) hov
    refine ⟨⟨?_, ?_⟩, he.1⟩
    · show (0 : Int) ≤ (b.player.gain_experience _).1.state.health
      rw [hstate]
      exact hp.1.1
    · show (b.player.gain_experience _).1.state.health ≤ _
      rw [hstate]
      calc b.player.state.health ≤ (b.player.attributes.stats.health : Int) := hp.1.2
        _ ≤ _ := by exact_mod_cast hstats
  · -- Defeat: nothing changes
    exact ⟨hp.1, he.1⟩
  · -- InProcess: only Defend statuses are removed
    dsimp only
    obtain ⟨hph, hpa⟩ := clean_up_fields b.player
    obtain ⟨heh, hea⟩ := clean_up_fields b.enemy
    constructor
    · exact ⟨by rw [show (b.clean_up).player = KaizoQuest.clean_up b.player from rfl, hph]; exact hp.1.1,
        by rw [show (b.clean_up).player = KaizoQuest.clean_up b.player from rfl, hph, hpa]; exact hp.1.2⟩
    · exact ⟨by rw [show (b.clean_up).enemy = KaizoQuest.clean_up b.enemy from rfl, heh]; exact he.1.1,
        by rw [show (b.clean_up).enemy = KaizoQuest.clean_up b.enemy from rfl, heh, hea]; exact he.1.2⟩

/-- `(fake_stats).scale 100` realizes 25 in each component; proved through
the floor characterisation (`100 * (1/4) / 1 = 25`). -/
theorem fake_stats_scale_health : (fake_stats.scale SCALING_FACTOR).health = 25 := by
  show ratToU32 _ = _
  apply ratToU32_eq
  · unfold fake_stats Stats.from_values
    norm_num
  · unfold fake_stats Stats.from_values SCALING_FACTOR
    rw [Int.floor_eq_iff]
    constructor <;> norm_num
  · norm_num

/-! ### Claim theorems -/

/-- C1, counterexample: `Stats<f64>::scale` does NOT always return components
summing to the requested total.  At the repository's own test input — the
ratio vector (1/4, 1/4, 1/4, 1/4), nonnegative with positive sum, and total
2243 — every component is `floor(2243/4) = 560` and the sum is 2240. -/
theorem C1_counterexample :
    (0 ≤ fake_stats.health ∧ 0 ≤ fake_stats.attack ∧
      0 ≤ fake_stats.defense ∧ 0 ≤ fake_stats.speed) ∧
    0 < fake_stats.health + fake_stats.attack + fake_stats.defense + fake_stats.speed ∧
    (fake_stats.scale 2243).health + (fake_stats.scale 2243).attack
        + (fake_stats.scale 2243).defense + (fake_stats.scale 2243).speed = 2240 ∧
    (2240 : Nat) ≠ 2243 := by
  have h560 : ratToU32 (((2243 : ℕ) : ℚ) * (1 / 4) / (1 / 4 + 1 / 4 + 1 / 4 + 1 / 4)) = 560 := by
    apply ratToU32_eq
    · norm_num
    · rw [Int.floor_eq_iff]
      constructor <;> norm_num
    · norm_num
  have hc : fake_stats.scale 2243 = ⟨560, 560, 560, 560⟩ := by
    unfold Stats.scale fake_stats Stats.from_values
    dsimp only
    rw [h560]
  refine ⟨by constructor <;> [skip; constructor <;> [skip; constructor]] <;>
    norm_num [fake_stats, Stats.from_values], ?_, ?_, by norm_num⟩
  · norm_num [fake_stats, Stats.from_values]
  · rw [hc]
    norm_num

/-- C1, amended: the four components of `Stats<f64>::scale ratios total` are
the floors `total * ratio_i / sum`, so for a nonnegative ratio vector with
positive sum they sum to AT MOST `total`; exact equality can fail by the
truncation (the random shortfall distribution lives only in the
`Species::scale` wrapper, not in `Stats<f64>::scale`). -/
theorem C1_scale_sum_le_total (s : Stats ℚ) (a : Nat)
    (h1 : 0 ≤ s.health) (h2 : 0 ≤ s.attack) (h3 : 0 ≤ s.defense) (h4 : 0 ≤ s.speed)
    (hz : 0 < s.health + s.attack + s.defense + s.speed) :
    (s.scale a).health + (s.scale a).attack + (s.scale a).defense + (s.scale a).speed
      ≤ a := by
  have hzle : (0 : ℚ) ≤ s.health + s.attack + s.defense + s.speed := le_of_lt hz
  have hzne : s.health + s.attack + s.defense + s.speed ≠ 0 := ne_of_gt hz
  have ha : (0 : ℚ) ≤ (a : ℚ) := Nat.cast_nonneg a
  have l1 := ratToU32_le
    (div_nonneg (mul_nonneg ha h1) hzle)
  have l2 := ratToU32_le
    (div_nonneg (mul_nonneg ha h2) hzle)
  have l3 := ratToU32_le
    (div_nonneg (mul_nonneg ha h3) hzle)
  have l4 := ratToU32_le
    (div_nonneg (mul_nonneg ha h4) hzle)
  have hsum : (a : ℚ) * s.health / (s.health + s.attack + s.defense + s.speed)
      + (a : ℚ) * s.attack / (s.health + s.attack + s.defense + s.speed)
      + (a : ℚ) * s.defense / (s.health + s.attack + s.defense + s.speed)
      + (a : ℚ) * s.speed / (s.health + s.attack + s.defense + s.speed) = (a : ℚ) := by
    field_simp
    ring
  have hkey : ((s.scale a).health : ℚ) + ((s.scale a).attack : ℚ)
      + ((s.scale a).defense : ℚ) + ((s.scale a).speed : ℚ) ≤ (a : ℚ) := by
    show (ratToU32 _ : ℚ) + (ratToU32 _ : ℚ) + (ratToU32 _ : ℚ) + (ratToU32 _ : ℚ) ≤ (a : ℚ)
    linarith [l1, l2, l3, l4]
  exact_mod_cast hkey

/-- C1, witness: the amended bound at the ratio vector (1/4, 1/4, 1/4, 1/4)
and total 100. -/
theorem C1_witness :
    (fake_stats.scale 100).health + (fake_stats.scale 100).attack
        + (fake_stats.scale 100).defense + (fake_stats.scale 100).speed ≤ 100 :=
  C1_scale_sum_le_total fake_stats 100
    (by norm_num [fake_stats, Stats.from_values])
    (by norm_num [fake_stats, Stats.from_values])
    (by norm_num [fake_stats, Stats.from_values])
    (by norm_num [fake_stats, Stats.from_values])
    (by norm_num [fake_stats, Stats.from_values])

/-- C2, counterexample: in the worked scenario (user level 19 / attack 17,
Scissors-aligned power-11 attack with no same-alignment bonus, target
defense 13 / health 100 / no Defend), a genuinely NEUTRAL effectiveness
factor (target Scissors-aligned, factor 10) yields damage 3 and health 97,
not 98 — the claimed formula `9*11*1*10*10/5000 + 2` evaluates to 3. -/
theorem C2_counterexample :
    exampleUser.attributes.level = 19 ∧
    exampleUser.attributes.stats.attack = 17 ∧
    exampleUser.state.alignment ≠ exampleAttack.alignment ∧
    exampleAttack.power = 11 ∧ exampleAttack.alignment = .Scissors ∧
    exampleAttack.priority = 0 ∧
    exampleTargetScissors.attributes.stats.defense = 13 ∧
    exampleTargetScissors.state.health = 100 ∧
    exampleTargetScissors.state.status.contains .Defend = false ∧
    effectiveness exampleAttack.alignment exampleTargetScissors.state.alignment = 10 ∧
    (exampleAttack.act exampleUser exampleTargetScissors).2.1.state.health = 97 ∧
    u32Mod (u32Mod (u32Mod (u32Mod (9 * 11) * 1) * 10) * 10) / 50 / 10 / 10 + 2 = 3 ∧
    (97 : Int) ≠ 98 := by
  decide

/-- C2, amended: the scenario of `attack_test` reaches health 98, but via
the NOT-VERY-EFFECTIVE factor 5 (the test target is Rock-aligned against a
Scissors attack): level_factor 9, stab 10, damage
`9*11*1*10*5 / 50 / 10 / 10 + 2 = 2`, hence health `100 - 2 = 98`; under a
neutral factor the damage would be 3 and the health 97. -/
theorem C2_attack_worked_example :
    effectiveness exampleAttack.alignment exampleTarget.state.alignment = 5 ∧
    2 * exampleUser.attributes.level / 5 + 2 = 9 ∧
    u32Mod (u32Mod (u32Mod (u32Mod (9 * 11) * 1) * 10) * 5) / 50 / 10 / 10 + 2 = 2 ∧
    exampleAttack.damage exampleUser exampleTarget = 2 ∧
    (exampleAttack.act exampleUser exampleTarget).2.1.state.health = 98 := by
  decide

/-- C3, counterexample: with a fixed-power attack of power `2^32 - 1` the
`damage as i32` cast reinterprets the damage as `-1`, so an in-bounds
target (health 10 = max health 10) ends the player turn at health 11,
above its maximum, and `deal_damage` on health 5 returns 6 instead of
`max 0 (5 - (2^32 - 1)) = 0`. -/
theorem C3_counterexample :
    charInv witnessChar ∧ charInv (fake_character_with_health 10) ∧
    ¬ charInv ((OnionBattle.mk witnessChar (fake_character_with_health 10)).player_turn 0
        (.pureAttack hugePureAttack)).1.enemy ∧
    (deal_damage (fake_character_with_health 5) (2 ^ 32 - 1)).state.health = 6 ∧
    (deal_damage (fake_character_with_health 5) (2 ^ 32 - 1)).state.health
      ≠ max 0 ((fake_character_with_health 5).state.health - ((2 ^ 32 - 1 : Nat) : Int)) := by
  decide

/-- C3, amended: the health bound `0 ≤ current_health ≤ realized max` is
preserved by `player_turn`, `enemy_turn` and `end_turn` — and `deal_damage`
computes `max 0 (h - d)` — provided every damage amount fits in a
nonnegative `i32` (`< 2^31`), statuses carry representable nonnegative
intensities, defenses are positive, the victor's level is positive and its
stat growth does not overflow `u32`; without the `2^31` bound the `u32` to
`i32` cast in `deal_damage` wraps and the bound fails. -/
theorem C3_health_invariant :
    (∀ (c : Character) (d : Nat), 0 ≤ c.state.health → c.state.health < 2 ^ 31 →
        d < 2 ^ 31 →
        (deal_damage c d).state.health = max 0 (c.state.health - (d : Int))) ∧
    (∀ (b : OnionBattle) (draw : Nat) (a : OnionAction),
        charWF b.player → charWF b.enemy → actionWF a →
        charInv (b.player_turn draw a).1.player ∧ charInv (b.player_turn draw a).1.enemy) ∧
    (∀ (b : OnionBattle) (draw : Nat) (a : OnionAction),
        charWF b.player → charWF b.enemy → actionWF a →
        charInv (b.enemy_turn draw a).1.player ∧ charInv (b.enemy_turn draw a).1.enemy) ∧
    (∀ b : OnionBattle, charWF b.player → charWF b.enemy →
        1 ≤ b.player.attributes.level →
        b.player.attributes.stats.health
            + (b.player.species.stats.scale SCALING_FACTOR).health < 2 ^ 32 →
        charInv b.end_turn.1.player ∧ charInv b.end_turn.1.enemy) := by
  refine ⟨deal_damage_spec, ?_, ?_, ?_⟩
  · intro b draw a hp he ha
    unfold OnionBattle.player_turn
    split
    · dsimp only
      exact take_turn_charInv draw b.player b.enemy a hp he ha
    · exact ⟨hp.1, he.1⟩
  · intro b draw a hp he ha
    unfold OnionBattle.enemy_turn
    split
    · dsimp only
      obtain ⟨h1, h2⟩ := take_turn_charInv draw b.enemy b.player a he hp ha
      exact ⟨h2, h1⟩
    · exact ⟨hp.1, he.1⟩
  · intro b hp he _hlvl hov
    exact end_turn_charInv b hp he hov

/-- C3, witness: the amended statement applied at concrete inputs — a
3-damage hit on `witnessChar`, a power-20 fixed attack in a
`witnessChar` mirror battle, and an end-of-turn on that battle. -/
theorem C3_witness :
    (deal_damage witnessChar 3).state.health
        = max 0 (witnessChar.state.health - ((3 : Nat) : Int)) ∧
    (charInv ((OnionBattle.mk witnessChar witnessChar).player_turn 0
        (.pureAttack ⟨"Burst", 20⟩)).1.player ∧
      charInv ((OnionBattle.mk witnessChar witnessChar).player_turn 0
        (.pureAttack ⟨"Burst", 20⟩)).1.enemy) ∧
    (charInv (OnionBattle.mk witnessChar witnessChar).end_turn.1.player ∧
      charInv (OnionBattle.mk witnessChar witnessChar).end_turn.1.enemy) := by
  refine ⟨C3_health_invariant.1 witnessChar 3 (by decide) (by decide) (by decide),
    C3_health_invariant.2.1 (OnionBattle.mk witnessChar witnessChar) 0
      (.pureAttack ⟨"Burst", 20⟩) (by decide) (by decide) (by decide),
    C3_health_invariant.2.2.2 (OnionBattle.mk witnessChar witnessChar)
      (by decide) (by decide) (by decide) ?_⟩
  have h1 : (OnionBattle.mk witnessChar witnessChar).player.species.stats = fake_stats := rfl
  rw [h1, fake_stats_scale_health]
  decide

/-- C4: with an active Stun status of intensity `n` (a nonnegative `i32`
value), `take_turn` draws `random::<u32>() mod (n+1)`; exactly when the
draw is 0, the Stun status is removed and the action executes normally
with the "no longer stunned" line prepended; otherwise nothing changes and
the single log line is the "is stunned" message. -/
theorem C4_stun_wrapper (draw : Nat) (user target : Character) (a : OnionAction)
    (n : Int) (hs : user.state.status.get .Stun = some n)
    (h0 : 0 ≤ n) (h1 : n < 2 ^ 31) (hdraw : draw < 2 ^ 32) :
    take_turn draw user target a =
      if draw % (n.toNat + 1) = 0 then
        ((a.act { user with state := { user.state with
            status := user.state.status.remove .Stun } } target).1,
          (a.act { user with state := { user.state with
            status := user.state.status.remove .Stun } } target).2.1,
          (user.name ++ " is no longer stunned.")
            :: (a.act { user with state := { user.state with
                status := user.state.status.remove .Stun } } target).2.2)
      else (user, target, [user.name ++ " is stunned."]) := by
  have hm : u32Mod draw % u32Mod (u32OfI32 n + 1) = draw % (n.toNat + 1) := by
    rw [u32Mod_eq_of_lt hdraw, u32OfI32_eq h0 h1, u32Mod_eq_of_lt (by omega)]
  unfold take_turn
  rw [hs]
  dsimp only
  rw [hm]

/-- C4, witness: intensity 2 and draw 1 — `1 mod 3 ≠ 0`, so the turn is
skipped with only the "is stunned" line. -/
theorem C4_witness :
    take_turn 1 stunUser fake_character .skip
      = (stunUser, fake_character, [stunUser.name ++ " is stunned."]) := by
  rw [C4_stun_wrapper 1 stunUser fake_character .skip 2 rfl
    (by decide) (by decide) (by decide)]
  rw [if_neg (by decide)]

/-- C5: applying the Bleed-class debuff to a stunned target (and the
Stun-class debuff to a bleeding target) leaves the target — statuses,
health, everything — unchanged and produces only a failure log line. -/
theorem C5_debuff_mutual_exclusion (user target : Character)
    (b : BleedAction) (s : StunAction) :
    (target.state.status.contains .Stun = true →
      (b.act user target).2.1 = target ∧
      (b.act user target).2.2
        = [user.name ++ " used " ++ b.name ++ ".",
            "But " ++ target.name ++ " is stunned."]) ∧
    (target.state.status.contains .Bleed = true →
      (s.act user target).2.1 = target ∧
      (s.act user target).2.2
        = [user.name ++ " used " ++ s.name ++ ".",
            "But " ++ target.name ++ " is poisoned."]) := by
  constructor
  · intro h
    unfold BleedAction.act
    dsimp only
    rw [if_pos h]
    exact ⟨rfl, rfl⟩
  · intro h
    unfold StunAction.act
    dsimp only
    rw [if_pos h]
    exact ⟨rfl, rfl⟩

/-- C5, witness: both directions at a target carrying Stun and Bleed at
intensity 1. -/
theorem C5_witness :
    ((BleedAction.mk "Cut" 1).act fake_character bothDebuffsTarget).2.1
        = bothDebuffsTarget ∧
    ((StunAction.mk "Yawn").act fake_character bothDebuffsTarget).2.1
        = bothDebuffsTarget :=
  ⟨((C5_debuff_mutual_exclusion fake_character bothDebuffsTarget
      ⟨"Cut", 1⟩ ⟨"Yawn"⟩).1 rfl).1,
    ((C5_debuff_mutual_exclusion fake_character bothDebuffsTarget
      ⟨"Cut", 1⟩ ⟨"Yawn"⟩).2 rfl).1⟩

/-- C6: a target with an active Defend status fully blocks both attack
variants — target (and user) come back unchanged, only logs are added. -/
theorem C6_defend_blocks (user target : Character) (a : Attack) (p : PureAttack)
    (hd : target.state.status.contains .Defend = true) :
    (a.act user target).2.1 = target ∧ (a.act user target).1 = user ∧
    (p.act user target).2.1 = target ∧ (p.act user target).1 = user := by
  unfold Attack.act PureAttack.act
  dsimp only
  rw [if_pos hd, if_pos hd]
  exact ⟨rfl, rfl, rfl, rfl⟩

/-- C6, witness: the Scissors power-11 attack and the huge fixed-power
attack against a defending target. -/
theorem C6_witness :
    (exampleAttack.act witnessChar defendingTarget).2.1 = defendingTarget ∧
    (hugePureAttack.act witnessChar defendingTarget).2.1 = defendingTarget := by
  have h := C6_defend_blocks witnessChar defendingTarget exampleAttack hugePureAttack rfl
  exact ⟨h.1, h.2.2.1⟩

/-- C7: `effectiveness` is total over the nine ordered alignment pairs,
always one of 5 (not very effective), 10 (neutral) or 20 (super
effective), and super-effectiveness of a distinct pair reverses to
not-very-effectiveness. -/
theorem C7_effectiveness_total_cycle :
    ∀ a b : Alignment,
      (effectiveness a b = 5 ∨ effectiveness a b = 10 ∨ effectiveness a b = 20) ∧
      (a ≠ b → effectiveness a b = 20 → effectiveness b a = 5) := by
  intro a b
  cases a <;> cases b <;> exact ⟨by decide, by decide⟩

/-- C7, witness: Rock is super effective against Scissors, so Scissors is
not very effective against Rock. -/
theorem C7_witness : effectiveness .Scissors .Rock = 5 :=
  (C7_effectiveness_total_cycle .Rock .Scissors).2 (by decide) (by decide)

/-- C8, counterexample: `gain_experience` adds with `u32` arithmetic; with
stored experience 1 and amount `2^32 - 1` the wrapped sum is 0, so the
stored experience becomes `0 mod 100 = 0`, not the claimed
`(1 + (2^32 - 1)) mod 100 = 96`. -/
theorem C8_counterexample :
    (fake_character.gain_experience 1).1.attributes.experience = 1 ∧
    ((fake_character.gain_experience 1).1.gain_experience
        (2 ^ 32 - 1)).1.attributes.experience = 0 ∧
    ((fake_character.gain_experience 1).1.attributes.experience + (2 ^ 32 - 1)) % 100
        = 96 ∧
    (0 : Nat) ≠ 96 := by
  refine ⟨?_, ?_, ?_, by norm_num⟩
  · rw [gain_experience_fst_experience]
    decide
  · rw [gain_experience_fst_experience, gain_experience_fst_experience]
    decide
  · rw [gain_experience_fst_experience]
    decide

/-- C8, amended: as long as the `u32` additions do not overflow,
`gain_experience` stores `(old + amount) mod 100` and adds
`(old + amount) div 100` levels; the worked sequence 1, 100, 99, 234 from
a fresh character yields stored experience 1, 1, 0, 34. -/
theorem C8_gain_experience_arithmetic :
    (∀ (c : Character) (amount : Nat),
        c.attributes.experience + amount < 2 ^ 32 →
        c.attributes.level + (c.attributes.experience + amount) / EXPERIENCE_TO_LEVEL
            < 2 ^ 32 →
        (c.gain_experience amount).1.attributes.experience
            = (c.attributes.experience + amount) % EXPERIENCE_TO_LEVEL ∧
        (c.gain_experience amount).1.attributes.level
            = c.attributes.level
                + (c.attributes.experience + amount) / EXPERIENCE_TO_LEVEL) ∧
    ((fake_character.gain_experience 1).1.attributes.experience = 1 ∧
      ((fake_character.gain_experience 1).1.gain_experience
          100).1.attributes.experience = 1 ∧
      (((fake_character.gain_experience 1).1.gain_experience
          100).1.gain_experience 99).1.attributes.experience = 0 ∧
      ((((fake_character.gain_experience 1).1.gain_experience
          100).1.gain_experience 99).1.gain_experience 234).1.attributes.experience
        = 34) := by
  constructor
  · intro c amount hov hlv
    rw [gain_experience_fst_experience, gain_experience_fst_level,
      u32Mod_eq_of_lt hov, u32Mod_eq_of_lt hlv]
    exact ⟨rfl, rfl⟩
  · refine ⟨?_, ?_, ?_, ?_⟩ <;>
      · simp only [gain_experience_fst_experience]
        decide

/-- C8, witness: the amended arithmetic at a fresh character and amount 5. -/
theorem C8_witness :
    (fake_character.gain_experience 5).1.attributes.experience
        = (fake_character.attributes.experience + 5) % EXPERIENCE_TO_LEVEL ∧
    (fake_character.gain_experience 5).1.attributes.level
        = fake_character.attributes.level
            + (fake_character.attributes.experience + 5) / EXPERIENCE_TO_LEVEL :=
  C8_gain_experience_arithmetic.1 fake_character 5 (by decide) (by decide)

/-- C9: when both healths are 0, `battle_state` resolves to Defeat — the
player-loss check is performed first. -/
theorem C9_defeat_precedence (b : OnionBattle)
    (hp : b.player.state.health = 0) (_he : b.enemy.state.health = 0) :
    b.battle_state = .Defeat := by
  unfold OnionBattle.battle_state
  rw [if_pos hp]

/-- C9, witness: two fresh characters (both at health 0). -/
theorem C9_witness :
    (OnionBattle.mk fake_character fake_character).battle_state = .Defeat :=
  C9_defeat_precedence _ rfl rfl

/-- C10: against an undefended target with positive defense, the damaging
Attack computes at least 2 damage (and below `2^31`); `effectiveness`
never returns 0, so the "It has no effect." commentary is unreachable and
the logs are exactly the use line plus the effectiveness commentary; a
target with positive (representable) health strictly loses health. -/
theorem C10_attack_always_damages (user target : Character) (a : Attack)
    (_hdef : 1 ≤ target.attributes.stats.defense)
    (hnd : target.state.status.contains .Defend = false) :
    2 ≤ a.damage user target ∧ a.damage user target < 2 ^ 31 ∧
    (∀ x y : Alignment, effectiveness x y ≠ 0) ∧
    (∀ x y : Alignment, "It has no effect." ∉ effectivenessLog (effectiveness x y)) ∧
    (a.act user target).2.2
      = [user.name ++ " used " ++ a.name ++ "."]
          ++ effectivenessLog (effectiveness a.alignment target.state.alignment) ∧
    (0 < target.state.health → target.state.health < 2 ^ 31 →
      (a.act user target).2.1.state.health < target.state.health) := by
  refine ⟨a.two_le_damage user target, a.damage_lt user target,
    ?_, ?_, ?_, ?_⟩
  · intro x y
    cases x <;> cases y <;> decide
  · intro x y
    cases x <;> cases y <;> decide
  · unfold Attack.act
    dsimp only
    rw [if_neg (by simp [hnd])]
  · intro h0 h1
    unfold Attack.act
    dsimp only
    rw [if_neg (by simp [hnd])]
    show (deal_damage target (a.damage user target)).state.health < _
    rw [deal_damage_spec target (a.damage user target) (le_of_lt h0) h1
      (a.damage_lt user target)]
    have h2 := a.two_le_damage user target
    omega

/-- C10, witness: the worked-example attacker and target. -/
theorem C10_witness :
    2 ≤ exampleAttack.damage exampleUser exampleTarget ∧
    (exampleAttack.act exampleUser exampleTarget).2.1.state.health
      < exampleTarget.state.health := by
  have h := C10_attack_always_damages exampleUser exampleTarget exampleAttack
    (by decide) (by decide)
  exact ⟨h.1, h.2.2.2.2.2 (by decide) (by decide)⟩

end KaizoQuest
